import Mathlib

/-!
Shallow embedding of `lego_inventory.py`: a per-user inventory service
(FastAPI + SQLAlchemy) with token-based identity resolution and four
store operations (list, add, remove one, remove all) over a table with a
compound unique constraint on (user_id, set_number).
-/

namespace LegoInventory

/-- A row of the `lego_sets` table (`class LegoSet` in the source):
primary key `id`, owner `user_id` (a UUID, modelled as its 128-bit
numeric value), `set_number` (integer key) and display `name`.
The table carries `UniqueConstraint("user_id", "set_number")`. -/
structure LegoSet where
  id : Nat
  user_id : Nat
  set_number : Int
  name : String
deriving DecidableEq, Repr

/-- The database state: the rows of `lego_sets` plus the next value of the
system-generated primary-key sequence. -/
structure Store where
  rows : List LegoSet
  nextId : Nat
deriving DecidableEq, Repr

/-- An HTTP error response, as raised by `HTTPException(status_code, detail)`
or produced by the framework (403 for a missing credential, 500 for an
uncaught exception). -/
structure HTTPEx where
  status : Nat
  detail : String
deriving DecidableEq, Repr

/-- The Boolean match used by the delete in `remove_set` and by the
unique constraint: the row belongs to user `u` and has key `k`. -/
def ownsKey (u : Nat) (k : Int) (r : LegoSet) : Bool :=
  r.user_id == u && r.set_number == k

/-- The Boolean match `LegoSet.user_id == user_id` used by `list_sets`
and `delete_all_sets`. -/
def ownedBy (u : Nat) (r : LegoSet) : Bool :=
  r.user_id == u

/-- Ordering of rows by `set_number`, the `ORDER BY` of `list_sets`. -/
def keyLE (a b : LegoSet) : Prop :=
  a.set_number ≤ b.set_number

instance : DecidableRel keyLE :=
  fun a b => inferInstanceAs (Decidable (a.set_number ≤ b.set_number))

instance : IsTotal LegoSet keyLE :=
  ⟨fun a b => le_total a.set_number b.set_number⟩

instance : IsTrans LegoSet keyLE :=
  ⟨fun _ _ _ h1 h2 => le_trans h1 h2⟩

/-- The per-owner uniqueness invariant enforced by
`UniqueConstraint("user_id", "set_number")`: no two rows share the same
(owner user id, item key) pair. -/
def OwnerKey (r : LegoSet) : Nat × Int :=
  (r.user_id, r.set_number)

/-- A store satisfies the invariant when the list of (owner, key) pairs of
its rows has no duplicate. -/
def Inv (s : Store) : Prop :=
  (s.rows.map OwnerKey).Nodup

/-- Endpoint `GET /sets` (`list_sets`): select the rows owned by the user, ordered
ascending by `set_number`, and project each to its
`{"set_number": ..., "name": ...}` pair. Total: the source has no error
path here — an empty result is a success. -/
def list_sets (u : Nat) (s : Store) : List (Int × String) :=
  (List.insertionSort keyLE (s.rows.filter (ownedBy u))).map
    (fun r => (r.set_number, r.name))

/-- Endpoint `POST /sets` (`add_set`): insert a new row with a fresh primary key.
The database raises `IntegrityError` exactly when the compound unique
constraint on (user_id, set_number) is violated, i.e. when a row with the
same owner and key already exists; the handler then rolls the insert back
and raises `HTTPException(409)`. On success the commit persists the row
and the handler returns `{"message": "Added", "set_number": ...}`. -/
def add_set (u : Nat) (k : Int) (n : String) (s : Store) :
    Store × Except HTTPEx (String × Int) :=
  if s.rows.any (ownsKey u k) then
    (s, Except.error ⟨409, "Lego set already exists in collection."⟩)
  else
    ({ rows := s.rows ++ [⟨s.nextId, u, k, n⟩], nextId := s.nextId + 1 },
     Except.ok ("Added", k))

/-- Endpoint `DELETE /sets` (`remove_set`): execute a delete conditioned on
(set_number, user_id) with `RETURNING set_number`, then apply
`scalar_one_or_none` to the returned keys: `none` on zero rows, the key on
one row, and a raised `MultipleResultsFound` on more than one row (an
uncaught exception, surfaced by the framework as a 500, with the session
closed uncommitted so the delete is rolled back). With zero rows the
commit still runs (deleting nothing) and the handler then raises
`HTTPException(404)`. -/
def remove_set (u : Nat) (k : Int) (s : Store) :
    Store × Except HTTPEx (String × Int) :=
  let returned := (s.rows.filter (ownsKey u k)).map (fun r => r.set_number)
  let committed : Store := { s with rows := s.rows.filter (fun r => !(ownsKey u k r)) }
  match returned with
  | [] => (committed, Except.error ⟨404, "Cannot remove provided set."⟩)
  | [_] => (committed, Except.ok ("Deleted", k))
  | _ => (s, Except.error ⟨500, "Internal Server Error"⟩)

/-- Endpoint `DELETE /delete_sets` (`delete_all_sets`): unconditionally delete every
row owned by the user and commit; always a success, even when nothing
matched. -/
def delete_all_sets (u : Nat) (s : Store) : Store × Except HTTPEx String :=
  ({ s with rows := s.rows.filter (fun r => !(ownedBy u r)) },
   Except.ok "Deleted all sets")

/-! Identity resolver (`get_current_user` and
`_verify_with_supabase_auth_server`). The JWT library and the network are
external, so their outcomes are inputs of the embedding: `LocalVerify` is
the result of `jwt.decode(token, secret, algorithms=["HS256"],
audience="authenticated")` and `RemoteOutcome` the result of the
`GET {SUPABASE_URL}/auth/v1/user` call. -/

/-- A hexadecimal digit's value, as accepted by `int(hex, 16)`. -/
def hexDigitVal (c : Char) : Option Nat :=
  if '0' ≤ c ∧ c ≤ '9' then some (c.toNat - '0'.toNat)
  else if 'a' ≤ c ∧ c ≤ 'f' then some (c.toNat - 'a'.toNat + 10)
  else if 'A' ≤ c ∧ c ≤ 'F' then some (c.toNat - 'A'.toNat + 10)
  else none

/-- Fold a list of hex digits into a number, failing on a non-hex
character. -/
def parseHexDigits : List Char → Nat → Option Nat
  | [], acc => some acc
  | c :: cs, acc =>
    match hexDigitVal c with
    | some v => parseHexDigits cs (acc * 16 + v)
    | none => none

/-- Models Python's `uuid.UUID(s)` constructor: remove hyphens, require
exactly 32 hexadecimal digits, and read them as a 128-bit value; anything
else raises `ValueError`, modelled as `none`. (The constructor also strips
`urn:uuid:` prefixes and braces, which no claim depends on.) -/
def uuidParse (s : String) : Option Nat :=
  let hexChars := s.toList.filter (fun c => c ≠ '-')
  if hexChars.length = 32 then parseHexDigits hexChars 0 else none

/-- The environment configuration read at startup: `SUPABASE_JWT_SECRET`,
`SUPABASE_URL` and `SUPABASE_ANON_KEY` (each possibly empty). -/
structure AuthConfig where
  jwtSecret : String
  supabaseUrl : String
  anonKey : String
deriving DecidableEq, Repr

/-- Outcome of the local `jwt.decode` call on the fast path: either the
decoded claims payload, or a `JWTError` (bad signature, garbled structure,
wrong audience, expiry, ...). -/
inductive LocalVerify where
  | ok (claims : List (String × String))
  | jwtError
deriving DecidableEq, Repr

/-- Body of a 2xx response from the identity provider: a JSON object whose
`id` field is absent, empty or a string — or malformed JSON (which makes
`json.loads` raise). -/
inductive RemoteBody where
  | json (idClaim : Option String)
  | malformed
deriving DecidableEq, Repr

/-- Outcome of the `urlopen` call to the identity provider: a response
body, an `HTTPError` with a status code, or a `URLError` (unreachable or
timed out). -/
inductive RemoteOutcome where
  | response (body : RemoteBody)
  | httpError (code : Nat)
  | urlError
deriving DecidableEq, Repr

/-- Models `payload.get(key)` on the decoded claims dictionary. -/
def lookupClaim (claims : List (String × String)) (key : String) : Option String :=
  match claims.find? (fun p => p.1 == key) with
  | some p => some p.2
  | none => none

/-- Function `_verify_with_supabase_auth_server`: requires `SUPABASE_URL` and
`SUPABASE_ANON_KEY` (else 500); maps an `HTTPError` of 401/403 to a 401,
any other `HTTPError` to a 503, and a `URLError` or malformed JSON to a
503. From a response body it reads `payload.get("id")`: absent or empty
is a 401 raised past the handlers; a non-empty id is parsed with
`uuid.UUID`, whose `ValueError` on a malformed id is caught by the
`except (ValueError, ...)` clause and so becomes a 503. -/
def verify_with_supabase_auth_server (cfg : AuthConfig) (remote : RemoteOutcome) :
    Except HTTPEx Nat :=
  if cfg.supabaseUrl = "" ∨ cfg.anonKey = "" then
    Except.error ⟨500, "Missing SUPABASE_URL or SUPABASE_ANON_KEY for token verification"⟩
  else
    match remote with
    | RemoteOutcome.httpError c =>
      if c = 401 ∨ c = 403 then Except.error ⟨401, "Invalid or expired token"⟩
      else Except.error ⟨503, "Auth verification service unavailable"⟩
    | RemoteOutcome.urlError => Except.error ⟨503, "Failed to verify token"⟩
    | RemoteOutcome.response RemoteBody.malformed =>
      Except.error ⟨503, "Failed to verify token"⟩
    | RemoteOutcome.response (RemoteBody.json idClaim) =>
      match idClaim with
      | none => Except.error ⟨401, "Invalid token: no user ID"⟩
      | some v =>
        if v = "" then Except.error ⟨401, "Invalid token: no user ID"⟩
        else
          match uuidParse v with
          | some u => Except.ok u
          | none => Except.error ⟨503, "Failed to verify token"⟩

/-- Function `get_current_user`: when `SUPABASE_JWT_SECRET` is configured, try the
local fast path. If `jwt.decode` succeeds, read `payload.get("sub")`: an
absent or empty subject raises a terminal 401 (`HTTPException` is not one
of the caught `(JWTError, ValueError)`), while a subject that fails
`uuid.UUID` parsing raises `ValueError`, which IS caught, so control falls
through to the remote fallback. A `JWTError` also falls through. With no
secret configured the fallback runs directly. -/
def get_current_user (cfg : AuthConfig) (localv : LocalVerify)
    (remote : RemoteOutcome) : Except HTTPEx Nat :=
  if cfg.jwtSecret ≠ "" then
    match localv with
    | LocalVerify.jwtError => verify_with_supabase_auth_server cfg remote
    | LocalVerify.ok claims =>
      match lookupClaim claims "sub" with
      | none => Except.error ⟨401, "Invalid token: no user ID"⟩
      | some v =>
        if v = "" then Except.error ⟨401, "Invalid token: no user ID"⟩
        else
          match uuidParse v with
          | some u => Except.ok u
          | none => verify_with_supabase_auth_server cfg remote
  else verify_with_supabase_auth_server cfg remote

/-- The credential situation of an inbound request: no `Authorization:
Bearer` header at all (rejected by `HTTPBearer` with a 403 before the
dependency runs), or a bearer token together with the external outcomes
its verification would produce. -/
inductive Credential where
  | missing
  | bearer (localv : LocalVerify) (remote : RemoteOutcome)
deriving DecidableEq, Repr

/-- Resolution of the request's credential to a user id: `HTTPBearer`
rejects an absent credential with 403; otherwise `get_current_user`
runs. -/
def resolve_user (cfg : AuthConfig) : Credential → Except HTTPEx Nat
  | Credential.missing => Except.error ⟨403, "Not authenticated"⟩
  | Credential.bearer localv remote => get_current_user cfg localv remote

/-- One of the four store requests, with its validated parameters. -/
inductive Request where
  | listReq
  | addReq (set_number : Int) (set_name : String)
  | removeReq (set_number : Int)
  | removeAllReq
deriving DecidableEq, Repr

/-- A success response body of one of the four endpoints. -/
inductive Response where
  | listed (message : String) (sets : List (Int × String))
  | confirmKey (message : String) (set_number : Int)
  | confirm (message : String)
deriving DecidableEq, Repr

/-- Dispatch of an authenticated request to its endpoint handler. -/
def dispatch (u : Nat) : Request → Store → Store × Except HTTPEx Response
  | Request.listReq, s => (s, Except.ok (Response.listed "Retrieved" (list_sets u s)))
  | Request.addReq k n, s =>
    let r := add_set u k n s
    (r.1, r.2.map (fun p => Response.confirmKey p.1 p.2))
  | Request.removeReq k, s =>
    let r := remove_set u k s
    (r.1, r.2.map (fun p => Response.confirmKey p.1 p.2))
  | Request.removeAllReq, s =>
    let r := delete_all_sets u s
    (r.1, r.2.map Response.confirm)

/-- Full request handling: every endpoint takes its user id from the
`Depends(get_current_user)` dependency, so a failed resolution
short-circuits with the authentication error and the handler body (and
the store) is never reached. -/
def handle (cfg : AuthConfig) (cred : Credential) (req : Request) (s : Store) :
    Store × Except HTTPEx Response :=
  match resolve_user cfg cred with
  | Except.error e => (s, Except.error e)
  | Except.ok u => dispatch u req s

/-! Helper lemmas shared by the claim theorems. -/

theorem ownsKey_eq_true (u : Nat) (k : Int) (r : LegoSet) :
    ownsKey u k r = true ↔ r.user_id = u ∧ r.set_number = k := by
  simp [ownsKey]

theorem ownedBy_eq_true (u : Nat) (r : LegoSet) :
    ownedBy u r = true ↔ r.user_id = u := by
  simp [ownedBy]

theorem nodup_of_inv_filter (p : LegoSet → Bool) (s : Store) (h : Inv s) :
    ((s.rows.filter p).map OwnerKey).Nodup :=
  h.sublist ((List.filter_sublist s.rows).map OwnerKey)

theorem length_le_one_of_nodup_of_all_eq {α : Type} (l : List α) (a : α)
    (hn : l.Nodup) (he : ∀ x ∈ l, x = a) : l.length ≤ 1 := by
  match l, hn, he with
  | [], _, _ => simp
  | [x], _, _ => simp
  | x :: y :: t, hn, he =>
    exfalso
    have hx := he x (by simp)
    have hy := he y (by simp)
    have hm : x ∉ y :: t := (List.nodup_cons.mp hn).1
    simp [hx, hy] at hm

theorem matched_length_le_one (u : Nat) (k : Int) (s : Store) (h : Inv s) :
    (s.rows.filter (ownsKey u k)).length ≤ 1 := by
  have hn : ((s.rows.filter (ownsKey u k)).map OwnerKey).Nodup :=
    nodup_of_inv_filter _ s h
  have he : ∀ x ∈ (s.rows.filter (ownsKey u k)).map OwnerKey, x = (u, k) := by
    intro x hx
    rcases List.mem_map.mp hx with ⟨r, hr, rfl⟩
    rcases List.mem_filter.mp hr with ⟨_, hpk⟩
    rcases (ownsKey_eq_true u k r).mp hpk with ⟨h1, h2⟩
    simp [OwnerKey, h1, h2]
  have hlen := length_le_one_of_nodup_of_all_eq _ _ hn he
  simpa using hlen

theorem length_filter_not_add (p : LegoSet → Bool) (l : List LegoSet) :
    (l.filter fun a => !(p a)).length + (l.filter p).length = l.length := by
  induction l with
  | nil => simp
  | cons x t ih => by_cases h : p x <;> simp [h, List.filter_cons] <;> omega

theorem inv_add_set (u : Nat) (k : Int) (n : String) (s : Store) (h : Inv s) :
    Inv (add_set u k n s).1 := by
  cases hany : s.rows.any (ownsKey u k) with
  | true => simpa [add_set, hany] using h
  | false =>
    have hnotin : (u, k) ∉ s.rows.map OwnerKey := by
      intro hmem
      rcases List.mem_map.mp hmem with ⟨r, hr, hok⟩
      have hfail : ¬(ownsKey u k r = true) := by
        have := List.any_eq_false.mp hany
        exact fun hc => (this r hr) hc
      apply hfail
      rw [ownsKey_eq_true]
      have h1 : r.user_id = u := congrArg Prod.fst hok
      have h2 : r.set_number = k := congrArg Prod.snd hok
      exact ⟨h1, h2⟩
    simp only [add_set, hany, Bool.false_eq_true, if_false]
    simp only [Inv, List.map_append, List.nodup_append, List.map_cons, List.map_nil]
    refine ⟨h, by simp, ?_⟩
    intro x hx hx2
    simp [OwnerKey] at hx2
    rw [hx2] at hx
    exact hnotin hx

theorem inv_remove_set (u : Nat) (k : Int) (s : Store) (h : Inv s) :
    Inv (remove_set u k s).1 := by
  have hc : Inv { s with rows := s.rows.filter (fun r => !(ownsKey u k r)) } :=
    nodup_of_inv_filter _ s h
  simp only [remove_set]
  split
  · exact hc
  · exact hc
  · exact h

theorem inv_delete_all_sets (u : Nat) (s : Store) (h : Inv s) :
    Inv (delete_all_sets u s).1 :=
  nodup_of_inv_filter _ s h

theorem inv_dispatch (u : Nat) (req : Request) (s : Store) (h : Inv s) :
    Inv (dispatch u req s).1 := by
  cases req with
  | listReq => exact h
  | addReq k n => exact inv_add_set u k n s h
  | removeReq k => exact inv_remove_set u k s h
  | removeAllReq => exact inv_delete_all_sets u s h

theorem inv_handle (cfg : AuthConfig) (cred : Credential) (req : Request)
    (s : Store) (h : Inv s) : Inv (handle cfg cred req s).1 := by
  unfold handle
  cases hres : resolve_user cfg cred with
  | error e => simpa using h
  | ok u => simpa using inv_dispatch u req s h

/-! Claim theorems. -/

/-- C1: for every reachable store state, no two records share the same
(owner user id, item key) pair, and this invariant is preserved by all
four operations (list, add, remove, removeAll); in particular inserting a
key under one user never conflicts with another user's record carrying
the same key — uniqueness is scoped to one owner. -/
theorem C1_owner_scoped_uniqueness (cfg : AuthConfig) (cred : Credential)
    (s : Store) (u : Nat) (k : Int) (n : String) (hInv : Inv s)
    (hNoOwn : ∀ r ∈ s.rows, r.user_id = u → r.set_number ≠ k) :
    (∀ req, Inv (handle cfg cred req s).1) ∧
    (add_set u k n s).2 = Except.ok ("Added", k) := by
  constructor
  · intro req
    exact inv_handle cfg cred req s hInv
  · have hany : s.rows.any (ownsKey u k) = false := by
      rw [List.any_eq_false]
      intro r hr hc
      rcases (ownsKey_eq_true u k r).mp hc with ⟨h1, h2⟩
      exact hNoOwn r hr h1 h2
    simp [add_set, hany]

/-- Witness for C1 at a concrete input: user 7 already owns key 42, and
user 5 can still insert key 42. -/
theorem C1_owner_scoped_uniqueness_witness :
    Inv (handle ⟨"", "", ""⟩ Credential.missing Request.listReq
        ⟨[⟨1, 7, 42, "X"⟩], 2⟩).1 ∧
    (add_set 5 42 "Y" ⟨[⟨1, 7, 42, "X"⟩], 2⟩).2 = Except.ok ("Added", 42) := by
  have h := C1_owner_scoped_uniqueness ⟨"", "", ""⟩ Credential.missing
    ⟨[⟨1, 7, 42, "X"⟩], 2⟩ 5 42 "Y" (by unfold Inv; decide) (by decide)
  exact ⟨h.1 Request.listReq, h.2⟩

/-- C2: after a successful add(U, K, N1), a second add(U, K, N2) fails
with the 409 duplicate conflict, the attempted insert is rolled back
(state unchanged), and the store holds exactly one record with owner U
and key K. -/
theorem C2_duplicate_add_conflict (u : Nat) (k : Int) (n1 n2 : String) (s : Store)
    (h : (add_set u k n1 s).2.isOk = true) :
    (add_set u k n2 (add_set u k n1 s).1).2 =
      Except.error ⟨409, "Lego set already exists in collection."⟩ ∧
    (add_set u k n2 (add_set u k n1 s).1).1 = (add_set u k n1 s).1 ∧
    ((add_set u k n1 s).1.rows.filter (ownsKey u k)).length = 1 := by
  cases hany : s.rows.any (ownsKey u k) with
  | true => simp [add_set, hany, Except.isOk, Except.toBool] at h
  | false =>
    have h1 : (add_set u k n1 s).1 =
        ⟨s.rows ++ [⟨s.nextId, u, k, n1⟩], s.nextId + 1⟩ := by
      simp [add_set, hany]
    have hfilter : s.rows.filter (ownsKey u k) = [] := by
      rw [List.filter_eq_nil_iff]
      intro r hr hc
      exact (List.any_eq_false.mp hany r hr) hc
    rw [h1]
    refine ⟨?_, ?_, ?_⟩
    · simp [add_set, List.any_append, hany, ownsKey]
    · simp [add_set, List.any_append, hany, ownsKey]
    · simp [List.filter_append, hfilter, ownsKey]

/-- Witness for C2 at a concrete input: adding key 1234 twice for user 5
starting from the empty store. -/
theorem C2_duplicate_add_conflict_witness :
    (add_set 5 1234 "Duplicate" (add_set 5 1234 "First" ⟨[], 1⟩).1).2 =
      Except.error ⟨409, "Lego set already exists in collection."⟩ ∧
    (add_set 5 1234 "Duplicate" (add_set 5 1234 "First" ⟨[], 1⟩).1).1 =
      (add_set 5 1234 "First" ⟨[], 1⟩).1 ∧
    ((add_set 5 1234 "First" ⟨[], 1⟩).1.rows.filter (ownsKey 5 1234)).length = 1 :=
  C2_duplicate_add_conflict 5 1234 "First" "Duplicate" ⟨[], 1⟩ (by decide)

/-- C3: list(U) always succeeds and returns exactly the (key, name) pairs
of the records owned by U, in ascending key order; with no records the
result is the empty sequence. -/
theorem C3_list_sorted_and_complete (u : Nat) (s : Store) :
    List.Sorted (fun a b : Int => a ≤ b) ((list_sets u s).map Prod.fst) ∧
    List.Perm (list_sets u s)
      ((s.rows.filter (ownedBy u)).map (fun r => (r.set_number, r.name))) ∧
    ((∀ r ∈ s.rows, r.user_id ≠ u) → list_sets u s = []) := by
  refine ⟨?_, ?_, ?_⟩
  · have hs := List.sorted_insertionSort keyLE (s.rows.filter (ownedBy u))
    have hmm : ((List.insertionSort keyLE (s.rows.filter (ownedBy u))).map
        (fun r => (r.set_number, r.name))).map Prod.fst =
        (List.insertionSort keyLE (s.rows.filter (ownedBy u))).map
          (fun r => r.set_number) := by
      rw [List.map_map]
      rfl
    rw [list_sets, hmm]
    exact List.Pairwise.map _ (fun a b hab => hab) hs
  · rw [list_sets]
    exact List.Perm.map _ (List.perm_insertionSort keyLE _)
  · intro hno
    have hf : s.rows.filter (ownedBy u) = [] := by
      rw [List.filter_eq_nil_iff]
      intro r hr hc
      exact hno r hr ((ownedBy_eq_true u r).mp hc)
    rw [list_sets, hf]
    rfl

/-- Witness for C3 at a concrete input: user 5 owns keys 300 and 100,
user 6 owns nothing. -/
theorem C3_list_sorted_and_complete_witness :
    (List.Sorted (fun a b : Int => a ≤ b)
      ((list_sets 5 ⟨[⟨1, 5, 300, "C"⟩, ⟨2, 5, 100, "A"⟩], 3⟩).map Prod.fst) ∧
    List.Perm (list_sets 5 ⟨[⟨1, 5, 300, "C"⟩, ⟨2, 5, 100, "A"⟩], 3⟩)
      (((⟨[⟨1, 5, 300, "C"⟩, ⟨2, 5, 100, "A"⟩], 3⟩ : Store).rows.filter
          (ownedBy 5)).map (fun r => (r.set_number, r.name))) ∧
    ((∀ r ∈ (⟨[⟨1, 5, 300, "C"⟩, ⟨2, 5, 100, "A"⟩], 3⟩ : Store).rows,
        r.user_id ≠ 5) →
      list_sets 5 ⟨[⟨1, 5, 300, "C"⟩, ⟨2, 5, 100, "A"⟩], 3⟩ = [])) ∧
    list_sets 5 ⟨[⟨1, 5, 300, "C"⟩, ⟨2, 5, 100, "A"⟩], 3⟩ =
      [(100, "A"), (300, "C")] :=
  ⟨C3_list_sorted_and_complete 5 ⟨[⟨1, 5, 300, "C"⟩, ⟨2, 5, 100, "A"⟩], 3⟩, by decide⟩

/-- C4: when no record (U, K) exists, remove(U, K) performs the
conditioned delete, finds zero returned rows, and fails with the 404
NotFound while the store is unchanged. -/
theorem C4_remove_nonexistent_not_found (u : Nat) (k : Int) (s : Store)
    (h : ∀ r ∈ s.rows, ¬(r.user_id = u ∧ r.set_number = k)) :
    remove_set u k s = (s, Except.error ⟨404, "Cannot remove provided set."⟩) := by
  have hf : s.rows.filter (ownsKey u k) = [] := by
    rw [List.filter_eq_nil_iff]
    intro r hr hc
    exact h r hr ((ownsKey_eq_true u k r).mp hc)
  have hkeep : s.rows.filter (fun r => !(ownsKey u k r)) = s.rows := by
    rw [List.filter_eq_self]
    intro r hr
    simp only [Bool.not_eq_true']
    cases hc : ownsKey u k r with
    | false => rfl
    | true => exact absurd ((ownsKey_eq_true u k r).mp hc) (h r hr)
  simp [remove_set, hf, hkeep]

/-- Witness for C4 at a concrete input: user 5 tries to remove key 9999,
which only user 7 owns under a different key. -/
theorem C4_remove_nonexistent_not_found_witness :
    remove_set 5 9999 ⟨[⟨1, 7, 42, "X"⟩], 2⟩ =
      (⟨[⟨1, 7, 42, "X"⟩], 2⟩, Except.error ⟨404, "Cannot remove provided set."⟩) :=
  C4_remove_nonexistent_not_found 5 9999 ⟨[⟨1, 7, 42, "X"⟩], 2⟩ (by decide)

/-- C5: when a record (U, K) exists, remove(U, K) succeeds, deletes
exactly that one record (the row count drops by one) and leaves every
other record in place — including a record with the same key owned by a
different user. -/
theorem C5_remove_existing_exact (u : Nat) (k : Int) (s : Store) (hInv : Inv s)
    (hmem : ∃ r ∈ s.rows, r.user_id = u ∧ r.set_number = k) :
    (remove_set u k s).2 = Except.ok ("Deleted", k) ∧
    (remove_set u k s).1.rows = s.rows.filter (fun r => !(ownsKey u k r)) ∧
    (remove_set u k s).1.rows.length + 1 = s.rows.length ∧
    ∀ r ∈ s.rows, ¬(r.user_id = u ∧ r.set_number = k) →
      r ∈ (remove_set u k s).1.rows := by
  rcases hmem with ⟨r0, hr0, hown⟩
  have hr0f : r0 ∈ s.rows.filter (ownsKey u k) :=
    List.mem_filter.mpr ⟨hr0, (ownsKey_eq_true u k r0).mpr hown⟩
  have hlen : (s.rows.filter (ownsKey u k)).length = 1 := by
    have hge : 0 < (s.rows.filter (ownsKey u k)).length :=
      List.length_pos.mpr (List.ne_nil_of_mem hr0f)
    have hle := matched_length_le_one u k s hInv
    omega
  rcases List.length_eq_one.mp hlen with ⟨a, ha⟩
  refine ⟨?_, ?_, ?_, ?_⟩
  · simp [remove_set, ha]
  · simp [remove_set, ha]
  · have hsum := length_filter_not_add (ownsKey u k) s.rows
    rw [hlen] at hsum
    simp only [remove_set, ha, List.map_cons, List.map_nil]
    omega
  · intro r hr hno
    simp only [remove_set, ha, List.map_cons, List.map_nil]
    exact List.mem_filter.mpr ⟨hr, by
      simp only [Bool.not_eq_true']
      cases hc : ownsKey u k r with
      | false => rfl
      | true => exact absurd ((ownsKey_eq_true u k r).mp hc) hno⟩

/-- Witness for C5 at a concrete input: users 5 and 7 both own key 77;
user 5 removes theirs and user 7's record survives. -/
theorem C5_remove_existing_exact_witness :
    (remove_set 5 77 ⟨[⟨1, 5, 77, "Mine"⟩, ⟨2, 7, 77, "Theirs"⟩], 3⟩).2 =
      Except.ok ("Deleted", 77) ∧
    (remove_set 5 77 ⟨[⟨1, 5, 77, "Mine"⟩, ⟨2, 7, 77, "Theirs"⟩], 3⟩).1.rows =
      ([⟨1, 5, 77, "Mine"⟩, ⟨2, 7, 77, "Theirs"⟩] : List LegoSet).filter
        (fun r => !(ownsKey 5 77 r)) ∧
    (remove_set 5 77 ⟨[⟨1, 5, 77, "Mine"⟩, ⟨2, 7, 77, "Theirs"⟩], 3⟩).1.rows.length + 1 =
      ([⟨1, 5, 77, "Mine"⟩, ⟨2, 7, 77, "Theirs"⟩] : List LegoSet).length ∧
    ∀ r ∈ ([⟨1, 5, 77, "Mine"⟩, ⟨2, 7, 77, "Theirs"⟩] : List LegoSet),
      ¬(r.user_id = 5 ∧ r.set_number = 77) →
        r ∈ (remove_set 5 77 ⟨[⟨1, 5, 77, "Mine"⟩, ⟨2, 7, 77, "Theirs"⟩], 3⟩).1.rows :=
  C5_remove_existing_exact 5 77 ⟨[⟨1, 5, 77, "Mine"⟩, ⟨2, 7, 77, "Theirs"⟩], 3⟩
    (by unfold Inv; decide) ⟨⟨1, 5, 77, "Mine"⟩, by decide, by decide⟩

/-- C6: removeAll(U) always succeeds, afterwards U owns no records, every
other user's records are untouched, and when U owned nothing the store is
unchanged. -/
theorem C6_delete_all_scoped (u : Nat) (s : Store) :
    (delete_all_sets u s).2 = Except.ok "Deleted all sets" ∧
    (∀ r ∈ (delete_all_sets u s).1.rows, r.user_id ≠ u) ∧
    (∀ r ∈ s.rows, r.user_id ≠ u → r ∈ (delete_all_sets u s).1.rows) ∧
    (∀ r ∈ (delete_all_sets u s).1.rows, r ∈ s.rows) ∧
    ((∀ r ∈ s.rows, r.user_id ≠ u) →
      delete_all_sets u s = (s, Except.ok "Deleted all sets")) := by
  refine ⟨rfl, ?_, ?_, ?_, ?_⟩
  · intro r hr
    have hb := (List.mem_filter.mp hr).2
    simp only [Bool.not_eq_true'] at hb
    intro hequ
    rw [← ownedBy_eq_true u r] at hequ
    rw [hequ] at hb
    cases hb
  · intro r hr hne
    refine List.mem_filter.mpr ⟨hr, ?_⟩
    simp only [Bool.not_eq_true']
    cases hc : ownedBy u r with
    | false => rfl
    | true => exact absurd ((ownedBy_eq_true u r).mp hc) hne
  · intro r hr
    exact (List.mem_filter.mp hr).1
  · intro hno
    have hkeep : s.rows.filter (fun r => !(ownedBy u r)) = s.rows := by
      rw [List.filter_eq_self]
      intro r hr
      simp only [Bool.not_eq_true']
      cases hc : ownedBy u r with
      | false => rfl
      | true => exact absurd ((ownedBy_eq_true u r).mp hc) (hno r hr)
    simp [delete_all_sets, hkeep]

/-- Witness for C6 at a concrete input: user 5 owns keys 1 and 2, user 7
owns key 100; after removeAll(5) only user 7's record remains. -/
theorem C6_delete_all_scoped_witness :
    (delete_all_sets 5 ⟨[⟨1, 5, 1, "A"⟩, ⟨2, 5, 2, "B"⟩, ⟨3, 7, 100, "C"⟩], 4⟩).2 =
      Except.ok "Deleted all sets" ∧
    (delete_all_sets 5 ⟨[⟨1, 5, 1, "A"⟩, ⟨2, 5, 2, "B"⟩, ⟨3, 7, 100, "C"⟩], 4⟩).1.rows =
      [⟨3, 7, 100, "C"⟩] :=
  ⟨(C6_delete_all_scoped 5 ⟨[⟨1, 5, 1, "A"⟩, ⟨2, 5, 2, "B"⟩, ⟨3, 7, 100, "C"⟩], 4⟩).1,
   by decide⟩

/-- C7: with a local verification secret configured, a locally verified
credential whose subject claim is absent or empty fails terminally with
the 401 InvalidToken for every possible remote outcome (no fallthrough),
while a signature/structure verification failure is not terminal: the
resolver proceeds to the remote fallback. -/
theorem C7_fast_path_terminal_and_fallback (cfg : AuthConfig)
    (claims : List (String × String)) (remote : RemoteOutcome)
    (hsec : cfg.jwtSecret ≠ "")
    (hsub : lookupClaim claims "sub" = none ∨ lookupClaim claims "sub" = some "") :
    get_current_user cfg (LocalVerify.ok claims) remote =
      Except.error ⟨401, "Invalid token: no user ID"⟩ ∧
    get_current_user cfg LocalVerify.jwtError remote =
      verify_with_supabase_auth_server cfg remote := by
  constructor
  · rcases hsub with h | h <;> simp [get_current_user, hsec, h]
  · simp [get_current_user, hsec]

/-- Witness for C7 at a concrete input: a token with no "sub" claim and
with the remote provider ready to answer with a valid user. -/
theorem C7_fast_path_terminal_and_fallback_witness :
    get_current_user ⟨"secret", "https://auth.example", "anon"⟩
        (LocalVerify.ok [("aud", "authenticated")])
        (RemoteOutcome.response (RemoteBody.json
          (some "00000000-0000-0000-0000-000000000001"))) =
      Except.error ⟨401, "Invalid token: no user ID"⟩ ∧
    get_current_user ⟨"secret", "https://auth.example", "anon"⟩
        LocalVerify.jwtError
        (RemoteOutcome.response (RemoteBody.json
          (some "00000000-0000-0000-0000-000000000001"))) =
      verify_with_supabase_auth_server ⟨"secret", "https://auth.example", "anon"⟩
        (RemoteOutcome.response (RemoteBody.json
          (some "00000000-0000-0000-0000-000000000001"))) :=
  C7_fast_path_terminal_and_fallback ⟨"secret", "https://auth.example", "anon"⟩
    [("aud", "authenticated")]
    (RemoteOutcome.response (RemoteBody.json
      (some "00000000-0000-0000-0000-000000000001")))
    (by decide) (Or.inl rfl)

/-- C8 counterexample: a user id that fails UUID parsing does NOT produce
the 401 InvalidToken. On the remote path "not-a-uuid" yields the 503
ServiceUnavailable (the `ValueError` from `uuid.UUID` is swallowed by the
`except (ValueError, ...)` clause), and on the local fast path a
non-parsing subject falls through to the remote fallback and can even end
in success. -/
theorem C8_parse_failure_counterexample :
    uuidParse "not-a-uuid" = none ∧
    get_current_user ⟨"", "https://auth.example", "anon"⟩ LocalVerify.jwtError
        (RemoteOutcome.response (RemoteBody.json (some "not-a-uuid"))) =
      Except.error ⟨503, "Failed to verify token"⟩ ∧
    get_current_user ⟨"secret", "https://auth.example", "anon"⟩
        (LocalVerify.ok [("sub", "not-a-uuid")])
        (RemoteOutcome.response (RemoteBody.json
          (some "00000000-0000-0000-0000-000000000001"))) =
      Except.ok 1 := by
  refine ⟨rfl, rfl, rfl⟩

/-- C8 amended: a non-parsing user id is never surfaced as InvalidToken.
On the local fast path the `ValueError` raised by `uuid.UUID` on the
subject claim is caught and control falls through to the remote fallback;
on the remote fallback path a non-parsing id field yields the 503
ServiceUnavailable error. -/
theorem C8_parse_failure_routing (cfg : AuthConfig)
    (claims : List (String × String)) (remote : RemoteOutcome) (v w : String)
    (hsec : cfg.jwtSecret ≠ "") (hsub : lookupClaim claims "sub" = some v)
    (hv : v ≠ "") (hparse : uuidParse v = none)
    (hurl : cfg.supabaseUrl ≠ "") (hkey : cfg.anonKey ≠ "")
    (hw : w ≠ "") (hwparse : uuidParse w = none) :
    get_current_user cfg (LocalVerify.ok claims) remote =
      verify_with_supabase_auth_server cfg remote ∧
    verify_with_supabase_auth_server cfg
        (RemoteOutcome.response (RemoteBody.json (some w))) =
      Except.error ⟨503, "Failed to verify token"⟩ := by
  constructor
  · simp [get_current_user, hsec, hsub, hv, hparse]
  · simp [verify_with_supabase_auth_server, hurl, hkey, hw, hwparse]

/-- Witness for the amended C8 at a concrete input. -/
theorem C8_parse_failure_routing_witness :
    get_current_user ⟨"secret", "https://auth.example", "anon"⟩
        (LocalVerify.ok [("sub", "not-a-uuid")]) RemoteOutcome.urlError =
      verify_with_supabase_auth_server ⟨"secret", "https://auth.example", "anon"⟩
        RemoteOutcome.urlError ∧
    verify_with_supabase_auth_server ⟨"secret", "https://auth.example", "anon"⟩
        (RemoteOutcome.response (RemoteBody.json (some "not-a-uuid"))) =
      Except.error ⟨503, "Failed to verify token"⟩ :=
  C8_parse_failure_routing ⟨"secret", "https://auth.example", "anon"⟩
    [("sub", "not-a-uuid")] RemoteOutcome.urlError "not-a-uuid" "not-a-uuid"
    (by decide) rfl (by decide) (by decide) (by decide) (by decide)
    (by decide) (by decide)

/-- C9: a request whose credential is absent or whose resolution fails is
rejected with that authentication error and no store operation executes:
the store state after the rejected request equals the state before it,
for all four operations. -/
theorem C9_auth_failure_short_circuits (cfg : AuthConfig) (cred : Credential)
    (req : Request) (s : Store) (e : HTTPEx)
    (h : resolve_user cfg cred = Except.error e) :
    handle cfg cred req s = (s, Except.error e) := by
  simp [handle, h]

/-- Witness for C9 at a concrete input: a request with no credential
against a non-empty store, for the add operation. -/
theorem C9_auth_failure_short_circuits_witness :
    handle ⟨"secret", "https://auth.example", "anon"⟩ Credential.missing
        (Request.addReq 1 "X") ⟨[⟨1, 7, 42, "X"⟩], 2⟩ =
      (⟨[⟨1, 7, 42, "X"⟩], 2⟩, Except.error ⟨403, "Not authenticated"⟩) :=
  C9_auth_failure_short_circuits ⟨"secret", "https://auth.example", "anon"⟩
    Credential.missing (Request.addReq 1 "X") ⟨[⟨1, 7, 42, "X"⟩], 2⟩
    ⟨403, "Not authenticated"⟩ rfl

/-- C10: for every state satisfying the per-owner uniqueness invariant,
the conditioned delete of remove(U, K) matches at most one record, so the
exactly-zero-or-one extraction never hits the more-than-one-result
branch: remove returns either the deletion confirmation or the 404
NotFound, never the multiplicity failure. -/
theorem C10_remove_never_multiplicity_failure (u : Nat) (k : Int) (s : Store)
    (hInv : Inv s) :
    (remove_set u k s).2 = Except.ok ("Deleted", k) ∨
    (remove_set u k s).2 = Except.error ⟨404, "Cannot remove provided set."⟩ := by
  have hle := matched_length_le_one u k s hInv
  cases hf : s.rows.filter (ownsKey u k) with
  | nil =>
    right
    simp [remove_set, hf]
  | cons a t =>
    cases t with
    | nil =>
      left
      simp [remove_set, hf]
    | cons b t2 =>
      rw [hf] at hle
      simp only [List.length_cons] at hle
      omega

/-- Witness for C10 at a concrete input: both outcomes of remove on an
invariant-satisfying store are in the allowed set; here the NotFound
one. -/
theorem C10_remove_never_multiplicity_failure_witness :
    (remove_set 5 9999 ⟨[⟨1, 7, 42, "X"⟩], 2⟩).2 = Except.ok ("Deleted", 9999) ∨
    (remove_set 5 9999 ⟨[⟨1, 7, 42, "X"⟩], 2⟩).2 =
      Except.error ⟨404, "Cannot remove provided set."⟩ :=
  C10_remove_never_multiplicity_failure 5 9999 ⟨[⟨1, 7, 42, "X"⟩], 2⟩
    (by unfold Inv; decide)

end LegoInventory
